import Mathlib

/-!
Verification of the Job Queue & Kudos-Gated Admission engine of AI-Horde,
as implemented in `horde/apis/v2/kobold.py`.

The Python code is shallowly embedded: each endpoint method becomes a pure
Lean function over explicit state records; exceptions become explicit
rejection results; external collaborators (the model cost table, the
`require_upfront_kudos` policy, `wp.downgrade`, `SharedKey.is_job_within_limits`)
become oracle inputs, since only their call sites live in the embedded file.
Numeric values (kudos amounts, multipliers) are modelled as exact rationals.
-/

namespace AIHorde

/-- Python's `round(q, 2)`: round to two decimal places, ties going to the
nearest even hundredth (banker's rounding), modelled over exact rationals. -/
def pyRound2 (q : ℚ) : ℚ :=
  let s : ℚ := q * 100
  let f : ℤ := ⌊s⌋
  let frac : ℚ := s - (f : ℚ)
  let r : ℤ :=
    if frac < 1 / 2 then f
    else if 1 / 2 < frac then f + 1
    else if f % 2 = 0 then f else f + 1
  (r : ℚ) / 100

/-- The multiplier scan of `TextAsyncGenerate.initiate_waiting_prompt`
(kobold.py:115-124): `highest_multiplier` starts at 0 and each model whose
multiplier is strictly greater replaces it.  `mult` stands for
`model_reference.get_text_model_multiplier`. -/
def highest_multiplier (mult : String → ℚ) (models : List String) : ℚ :=
  models.foldl (fun h m => if mult m > h then mult m else h) 0

/-- The quantity `required_kudos` as computed in kobold.py:116-125: `20 * n` when no models
are requested, otherwise `round(max_length * highest_multiplier / 21, 2) * n`. -/
def required_kudos_calc (mult : String → ℚ) (models : List String) (max_length n : ℕ) : ℚ :=
  if models.length = 0 then 20 * (n : ℚ)
  else pyRound2 ((max_length : ℚ) * highest_multiplier mult models / 21) * (n : ℚ)

/-- The two fields of a `TextWaitingPrompt` that the admission checks read and
the cancel endpoint mutates: unit count `n` and `max_length`. -/
structure TextWP where
  n : ℕ
  max_length : ℕ
deriving DecidableEq, Repr

/-- A shared key as read by `initiate_waiting_prompt`: its id, its remaining
kudos budget (`-1` is the unlimited sentinel), and its
`is_job_within_limits(text_tokens=...)` check returning
`(is_in_limit, fail_message)`.  The check itself lives outside the embedded
file, so it is carried as an oracle field. -/
structure SharedKey where
  id : ℕ
  kudos : ℚ
  is_job_within_limits : ℕ → Bool × String

/-- One well-formed segment of a Python format template: literal text or a
replacement field `{name}`. -/
inductive Segment
  | lit (s : String)
  | hole (name : String)
deriving DecidableEq, Repr

/-- Python `str.format_map(m)` over a well-formed template: replacement fields
are looked up in `m`; a missing key raises `KeyError` (the `.error` case). -/
def pyFormatMap : List Segment → (String → Option String) → Except String String
  | [], _ => .ok ""
  | .lit s :: rest, m => (pyFormatMap rest m).map (fun t => s ++ t)
  | .hole name :: rest, m =>
    match m name with
    | none => .error name
    | some v => (pyFormatMap rest m).map (fun t => v ++ t)

/-- The mapping `defaultdict(str, p=prompt)` of kobold.py:204: every key is
present; `"p"` maps to the user prompt and every other key to `""`. -/
def defaultdictStr (prompt : String) : String → Option String :=
  fun name => some (if name = "p" then prompt else "")

/-- Stated from the spec's words, for comparison with the source's
`format_map` call: interpolate the user prompt into the `p` slot and replace
every other placeholder with the empty string. -/
def renderTemplate : List Segment → String → String
  | [], _ => ""
  | .lit s :: rest, p => s ++ renderTemplate rest p
  | .hole name :: rest, p => (if name = "p" then p else "") ++ renderTemplate rest p

/-- Generation parameters: the unit count `n` (absent when the user supplied
none) plus the remaining opaque entries. -/
structure TextParams where
  n : Option ℕ
  rest : List (String × String)
deriving DecidableEq, Repr

/-- A resolved text style as consumed by `TextAsyncGenerate.apply_style`
(kobold.py:194-208): its type tag, prompt template, params, model names
(`get_model_names()`), nsfw flag, and the id of its bound shared key when one
exists (read by the quota bypass at kobold.py:160). -/
structure Style where
  style_type : String
  prompt : List Segment
  params : TextParams
  model_names : List String
  nsfw : Bool
  sharedkey : Option ℕ
deriving DecidableEq, Repr

/-- The request state that `apply_style` rewrites. -/
structure ReqState where
  prompt : String
  params : TextParams
  models : List String
  nsfw : Bool
deriving DecidableEq, Repr

/-- The method `TextAsyncGenerate.apply_style` on an already-resolved text style
(kobold.py:194-208): reject non-text styles, interpolate the user prompt into
the style's template through `defaultdict(str, p=...)`, then override models
and params with the style's values while restoring the user's requested `n`
(`self.params.get("n", 1)`). -/
def apply_style (st : Style) (s : ReqState) : Except String ReqState :=
  if st.style_type ≠ "text" then .error "StyleMismatch"
  else
    match pyFormatMap st.prompt (defaultdictStr s.prompt) with
    | .error k => .error k
    | .ok newPrompt =>
      let requested_n := s.params.n.getD 1
      .ok { prompt := newPrompt
            models := st.model_names
            params := { st.params with n := some requested_n }
            nsfw := st.nsfw }

/-- The exceptions raised by the embedded endpoints.  `KudosUpfront` carries
the required kudos amount and its `rc` return code (the class default is
`"KudosUpfront"`; kobold.py:137 overrides it to `"SharedKeyInsufficientKudos"`). -/
inductive HordeError
  | KudosUpfront (required : ℚ) (rc : String)
  | BadRequest (message : String)
  | RequestNotFound
  | UserNotFound
deriving DecidableEq, Repr

/-- Outcome of `initiate_waiting_prompt`: either the waiting prompt survives
(with the final wp fields, the `downgrade_wp_priority` flag, and whether
`wp.downgrade(tokens)` ran), or it was rejected — `wp_deleted` records that
`self.wp.delete()` ran before the raise, as it does at every raise site. -/
inductive AdmissionResult
  | accepted (wp : TextWP) (downgrade_wp_priority : Bool) (downgraded : Bool)
  | rejected (wp_deleted : Bool) (err : HordeError)
deriving DecidableEq, Repr

/-- All inputs of `initiate_waiting_prompt` (kobold.py:95-162): the request
fields, the payer state, and the outputs of the external collaborators —
`needs_kudos`/`tokens`/`disable_downgrade` from `wp.require_upfront_kudos`,
and `downgrade` standing for the external `wp.downgrade(tokens)` method. -/
structure GenInput where
  models : List String
  mult : String → ℚ
  wp : TextWP
  sharedkey : Option SharedKey
  allow_downgrade : Bool
  needs_kudos : Bool
  tokens : ℕ
  disable_downgrade : Bool
  user_kudos : ℚ
  existing_style : Option Style
  downgrade : TextWP → ℕ → TextWP

/-- The guard of kobold.py:127:
`self.sharedkey and self.sharedkey.kudos != -1 and required_kudos > self.sharedkey.kudos`. -/
def sharedKeyBudgetShort (sk : Option SharedKey) (required : ℚ) : Bool :=
  match sk with
  | none => false
  | some k => decide (k.kudos ≠ -1) && decide (required > k.kudos)

/-- The bypass guard of kobold.py:160:
`self.existing_style and self.existing_style.sharedkey and self.existing_style.sharedkey.id == self.sharedkey.id`. -/
def styleBypass (style : Option Style) (k : SharedKey) : Bool :=
  match style with
  | none => false
  | some st =>
    match st.sharedkey with
    | none => false
    | some sid => sid == k.id

/-- The shared-key token-ceiling check of kobold.py:153-162, run after the
kudos checks on the (possibly downgraded) wp. -/
def check_sharedkey_limits (inp : GenInput) (wp : TextWP) (dp downgraded : Bool) :
    AdmissionResult :=
  match inp.sharedkey with
  | none => .accepted wp dp downgraded
  | some k =>
    let res := k.is_job_within_limits wp.max_length
    if res.1 then .accepted wp dp downgraded
    else if styleBypass inp.existing_style k then .accepted wp dp downgraded
    else .rejected true (.BadRequest res.2)

/-- The upfront-kudos check of kobold.py:139-151: when kudos are needed and the
user balance falls short, either `wp.downgrade(tokens)` (downgrade permitted)
or delete-and-raise `KudosUpfront`. -/
def check_upfront_kudos (inp : GenInput) (required : ℚ) (dp : Bool) : AdmissionResult :=
  if inp.needs_kudos && decide (required > inp.user_kudos) then
    if inp.allow_downgrade && !inp.disable_downgrade then
      check_sharedkey_limits inp (inp.downgrade inp.wp inp.tokens) dp true
    else .rejected true (.KudosUpfront required "KudosUpfront")
  else check_sharedkey_limits inp inp.wp dp false

/-- The method `TextAsyncGenerate.initiate_waiting_prompt` (kobold.py:114-162) after the
wp construction: compute `required_kudos`, run the shared-key budget check
(kobold.py:127-138), then the upfront-kudos check, then the shared-key
token-ceiling check. -/
def initiate_waiting_prompt (inp : GenInput) : AdmissionResult :=
  let required := required_kudos_calc inp.mult inp.models inp.wp.max_length inp.wp.n
  if sharedKeyBudgetShort inp.sharedkey required then
    if inp.allow_downgrade && !inp.disable_downgrade then
      check_upfront_kudos inp required true
    else .rejected true (.KudosUpfront required "SharedKeyInsufficientKudos")
  else check_upfront_kudos inp required false

/-- The required kudos of a request, as `initiate_waiting_prompt` computes it. -/
def requiredOf (inp : GenInput) : ℚ :=
  required_kudos_calc inp.mult inp.models inp.wp.max_length inp.wp.n

/-- Whether an admission outcome is the shared-key budget rejection
(`rc == "SharedKeyInsufficientKudos"`, kobold.py:132-138). -/
def isSharedKeyBudgetRejection : AdmissionResult → Bool
  | .rejected _ (.KudosUpfront _ rc) => rc == "SharedKeyInsufficientKudos"
  | _ => false

/-- The `downgrade_wp_priority` flag of an outcome (false on rejection). -/
def downgradePriorityOf : AdmissionResult → Bool
  | .accepted _ dp _ => dp
  | _ => false

/-- The collaborator-supplied aggregate signals passed to `wp.get_status`
(kobold.py:289-294). -/
structure Signals where
  request_avg : ℚ
  has_valid_workers : Bool
  wp_queue_stats : ℕ
  active_worker_count : ℕ
deriving DecidableEq, Repr

/-- Modelled from the spec: `TextWaitingPrompt.get_status` is not under src/;
per the spec it is "a read-only projection combining the Job's own fields with
externally-supplied aggregate signals", so a status is modelled as exactly
that pair. -/
structure Status where
  job : TextWP
  signals : Signals
deriving DecidableEq, Repr

/-- Modelled from the spec: `get_status` projects the job's fields and the
supplied signals, mutating nothing. -/
def get_status (wp : TextWP) (sig : Signals) : Status :=
  { job := wp, signals := sig }

/-- Job lifecycle states, from the spec's data model. -/
inductive LifecycleState
  | queued
  | completed
  | cancelled
  | expired
deriving DecidableEq, Repr

/-- Modelled from the spec: the lifecycle state machinery of
`TextWaitingPrompt` is not under src/.  Per the spec, "state becomes terminal
(completed/cancelled/expired) exactly when remaining == 0 or TTL elapses or
explicit cancellation occurs", so the state is derived from the remaining
count and which terminal event applies. -/
def jobState (explicitly_cancelled ttl_elapsed : Bool) (wp : TextWP) : LifecycleState :=
  if wp.n = 0 then (if explicitly_cancelled then .cancelled else .completed)
  else if ttl_elapsed then .expired else .queued

/-- Outcome of the cancel endpoint: the marshalled response (when any), the
waiting prompt's state after the handler, and the exception raised (when any). -/
structure CancelOutcome where
  response : Option Status
  finalWP : Option TextWP
  err : Option HordeError
deriving DecidableEq, Repr

/-- The handler `TextAsyncStatus.delete` (kobold.py:276-300): look the wp up (404 when
absent), compute `wp_status = wp.get_status(...)`, then set `wp.n = 0` and
commit, returning the previously computed status. -/
def textAsyncStatus_delete (found : Option TextWP) (sig : Signals) : CancelOutcome :=
  match found with
  | none => { response := none, finalWP := none, err := some .RequestNotFound }
  | some wp =>
    let wp_status := get_status wp sig
    let wp2 : TextWP := { wp with n := 0 }
    { response := some wp_status, finalWP := some wp2, err := none }

/-- The user fields touched by `KoboldKudosTransfer.post`: kudos balance and
trust flag. -/
structure User where
  kudos : ℤ
  trusted : Bool
deriving DecidableEq, Repr

/-- Outcome of the kudos-transfer endpoint: the user's final state (unchanged
on rejection) and either the returned `new_kudos` or the exception raised. -/
structure TransferOutcome where
  finalUser : Option User
  result : Except HordeError ℤ
deriving Repr

/-- The handler `KoboldKudosTransfer.post` (kobold.py:428-442): deny any caller whose
remote address is not `167.86.124.45` before touching the user; otherwise 404
on an unknown user, else set the trust flag when requested and credit the
kudos (`modify_kudos` adds the amount — modelled from the spec's
`creditKudos`). -/
def kobold_kudos_transfer (remote_addr : String) (user : Option User)
    (kudos_amount : ℤ) (trusted : Bool) : TransferOutcome :=
  if remote_addr ≠ "167.86.124.45" then
    { finalUser := user, result := .error (.BadRequest "Access Denied") }
  else
    match user with
    | none => { finalUser := none, result := .error .UserNotFound }
    | some u =>
      let u1 := if u.trusted = false ∧ trusted = true then { u with trusted := true } else u
      let u2 : User := { u1 with kudos := u1.kudos + kudos_amount }
      { finalUser := some u2, result := .ok u2.kudos }

/-- The maximum-of-a-model-list property: `v` bounds every requested model's
multiplier and is attained by one of them. -/
def IsMaxMultiplier (v : ℚ) (mult : String → ℚ) (models : List String) : Prop :=
  (∀ m ∈ models, mult m ≤ v) ∧ ∃ m ∈ models, v = mult m

/-- The concrete cost table of the spec's worked example: model A costs ×2,
model B costs ×5. -/
def exampleMult : String → ℚ :=
  fun m => if m = "modelA" then 2 else if m = "modelB" then 5 else 0

/-- Whether the shared-key token-ceiling check lets the job through: no shared
key, a passing `is_job_within_limits`, or the style-binding bypass. -/
def quotaPass (sk : Option SharedKey) (style : Option Style) (max_length : ℕ) : Bool :=
  match sk with
  | none => true
  | some k => (k.is_job_within_limits max_length).1 || styleBypass style k

/-- A shared key with a finite budget of 30 kudos and a passing token ceiling. -/
def skBudget30 : SharedKey :=
  { id := 7, kudos := 30, is_job_within_limits := fun _ => (true, "") }

/-- A shared key with the unlimited budget sentinel and a passing token ceiling. -/
def skUnlimited : SharedKey :=
  { id := 8, kudos := -1, is_job_within_limits := fun _ => (true, "") }

/-- A shared key with the unlimited budget sentinel whose token ceiling fails. -/
def skOverCeiling : SharedKey :=
  { id := 9, kudos := -1, is_job_within_limits := fun _ => (false, "token budget exceeded") }

/-- A concrete request paid through `skBudget30`: no models, n = 3, so the
required kudos are 60, above the key's budget of 30; downgrade not requested. -/
def inputC2 : GenInput :=
  { models := [], mult := fun _ => 1, wp := { n := 3, max_length := 100 }
    sharedkey := some skBudget30, allow_downgrade := false, needs_kudos := false
    tokens := 0, disable_downgrade := false, user_kudos := 1000
    existing_style := none, downgrade := fun w _ => w }

/-- A concrete request that needs upfront kudos it does not have (20 > 5) and
asks for a downgrade; no shared key. -/
def inputC3 : GenInput :=
  { models := [], mult := fun _ => 1, wp := { n := 1, max_length := 512 }
    sharedkey := none, allow_downgrade := true, needs_kudos := true
    tokens := 256, disable_downgrade := false, user_kudos := 5
    existing_style := none, downgrade := fun w t => { w with max_length := t } }

/-- A concrete request whose shared key fails the token ceiling while every
kudos check passes. -/
def inputC5 : GenInput :=
  { models := [], mult := fun _ => 1, wp := { n := 2, max_length := 300 }
    sharedkey := some skOverCeiling, allow_downgrade := false, needs_kudos := false
    tokens := 0, disable_downgrade := false, user_kudos := 0
    existing_style := none, downgrade := fun w _ => w }

/-- A concrete request through an unlimited shared key with a huge kudos
requirement the user cannot pay. -/
def inputC9 : GenInput :=
  { models := [], mult := fun _ => 1, wp := { n := 1000000, max_length := 1024 }
    sharedkey := some skUnlimited, allow_downgrade := false, needs_kudos := true
    tokens := 512, disable_downgrade := false, user_kudos := 0
    existing_style := none, downgrade := fun w _ => w }

/-- A concrete resolved text style with a literal, the `p` slot, and a stray
placeholder the style author added by mistake. -/
def styleC7 : Style :=
  { style_type := "text", prompt := [.lit "As a pirate: ", .hole "p", .hole "extra"]
    params := { n := some 4, rest := [("temperature", "0.7")] }
    model_names := ["modelB"], nsfw := false, sharedkey := none }

/-- A concrete request state whose params carry no `n` of their own. -/
def reqC7 : ReqState :=
  { prompt := "hello", params := { n := none, rest := [("max_length", "80")] }
    models := ["modelA"], nsfw := true }

/-- The request state `apply_style styleC7 reqC7` produces. -/
def outC7 : ReqState :=
  { prompt := "As a pirate: hello"
    params := { n := some 1, rest := [("temperature", "0.7")] }
    models := ["modelB"], nsfw := false }

section FoldLemmas

/-- The strict-improvement fold never drops below its accumulator. -/
theorem foldl_step_ge_init (mult : String → ℚ) (l : List String) :
    ∀ a : ℚ, a ≤ l.foldl (fun h m => if mult m > h then mult m else h) a := by
  induction l with
  | nil => intro a; simp
  | cons x xs ih =>
    intro a
    simp only [List.foldl_cons]
    refine le_trans ?_ (ih _)
    by_cases hx : mult x > a
    · simp only [if_pos hx]
      exact le_of_lt hx
    · simp only [if_neg hx]
      exact le_rfl

/-- The strict-improvement fold bounds every list member's multiplier. -/
theorem foldl_step_ge_mem (mult : String → ℚ) (l : List String) :
    ∀ a : ℚ, ∀ m ∈ l, mult m ≤ l.foldl (fun h m => if mult m > h then mult m else h) a := by
  induction l with
  | nil => intro a m hm; cases hm
  | cons x xs ih =>
    intro a m hm
    rcases List.mem_cons.mp hm with rfl | hm2
    · simp only [List.foldl_cons]
      refine le_trans ?_ (foldl_step_ge_init mult xs _)
      by_cases hx : mult m > a
      · simp only [if_pos hx]
        exact le_rfl
      · simp only [if_neg hx]
        exact le_of_not_lt hx
    · simp only [List.foldl_cons]
      exact ih _ m hm2

/-- The strict-improvement fold returns its accumulator or a member's value. -/
theorem foldl_step_eq_init_or_mem (mult : String → ℚ) (l : List String) :
    ∀ a : ℚ, l.foldl (fun h m => if mult m > h then mult m else h) a = a ∨
      ∃ m ∈ l, l.foldl (fun h m => if mult m > h then mult m else h) a = mult m := by
  induction l with
  | nil => intro a; left; rfl
  | cons x xs ih =>
    intro a
    simp only [List.foldl_cons]
    rcases ih (if mult x > a then mult x else a) with h | ⟨m, hm, he⟩
    · by_cases hx : mult x > a
      · right
        exact ⟨x, List.mem_cons_self x xs, by rw [h, if_pos hx]⟩
      · left
        rw [h, if_neg hx]
    · right
      exact ⟨m, List.mem_cons_of_mem x hm, he⟩

end FoldLemmas

/-- When the quota check passes (or is bypassed), the token-ceiling stage
accepts the job unchanged. -/
theorem check_sharedkey_limits_of_quotaPass (inp : GenInput) (wp : TextWP) (dp dg : Bool)
    (hq : quotaPass inp.sharedkey inp.existing_style wp.max_length = true) :
    check_sharedkey_limits inp wp dp dg = .accepted wp dp dg := by
  unfold check_sharedkey_limits
  unfold quotaPass at hq
  match hsk : inp.sharedkey with
  | none => rfl
  | some k =>
    rw [hsk] at hq
    simp only [Bool.or_eq_true] at hq
    rcases hq with hq | hq
    · simp [hq]
    · by_cases hl : (k.is_job_within_limits wp.max_length).1
      · simp [hl]
      · simp [hl, hq]

/-- The token-ceiling stage either accepts the job as given or rejects it with
a `BadRequest` after deleting the waiting prompt. -/
theorem check_sharedkey_limits_cases (inp : GenInput) (wp : TextWP) (dp dg : Bool) :
    check_sharedkey_limits inp wp dp dg = .accepted wp dp dg ∨
    ∃ msg, check_sharedkey_limits inp wp dp dg = .rejected true (.BadRequest msg) := by
  unfold check_sharedkey_limits
  match inp.sharedkey with
  | none => exact Or.inl rfl
  | some k =>
    dsimp only
    split
    · exact Or.inl rfl
    · split
      · exact Or.inl rfl
      · exact Or.inr ⟨(k.is_job_within_limits wp.max_length).2, rfl⟩

/-- The upfront-kudos stage entered with `downgrade_wp_priority = false` never
produces the shared-key budget rejection and never sets the priority flag. -/
theorem check_upfront_kudos_no_budget_rejection (inp : GenInput) (required : ℚ) :
    isSharedKeyBudgetRejection (check_upfront_kudos inp required false) = false ∧
    downgradePriorityOf (check_upfront_kudos inp required false) = false := by
  unfold check_upfront_kudos
  split
  · split
    · rcases check_sharedkey_limits_cases inp (inp.downgrade inp.wp inp.tokens) false true with
        h | ⟨msg, h⟩ <;> rw [h] <;> exact ⟨rfl, rfl⟩
    · refine ⟨?_, rfl⟩
      simp [isSharedKeyBudgetRejection]
  · rcases check_sharedkey_limits_cases inp inp.wp false false with
      h | ⟨msg, h⟩ <;> rw [h] <;> exact ⟨rfl, rfl⟩

/-- Claim C1: the required kudos of a text job equal `20 * n` when no models
are requested, and otherwise `round(max_length * maxMultiplier / 21, 2) * n`
where `maxMultiplier` is the maximum multiplier among the requested models; in
particular for multipliers ×2 and ×5, n = 1 and max_length = 210 the result is
50, the value computed from the ×5 multiplier. -/
theorem required_kudos_uses_max_multiplier (mult : String → ℚ) (models : List String)
    (max_length n : ℕ) (hne : models ≠ []) (hpos : ∀ m ∈ models, 0 ≤ mult m) :
    required_kudos_calc mult [] max_length n = 20 * (n : ℚ) ∧
    IsMaxMultiplier (highest_multiplier mult models) mult models ∧
    required_kudos_calc mult models max_length n
      = pyRound2 ((max_length : ℚ) * highest_multiplier mult models / 21) * (n : ℚ) ∧
    required_kudos_calc exampleMult ["modelA", "modelB"] 210 1 = 50 := by
  refine ⟨by simp [required_kudos_calc], ⟨?_, ?_⟩, ?_, ?_⟩
  · intro m hm
    exact foldl_step_ge_mem mult models 0 m hm
  · rcases foldl_step_eq_init_or_mem mult models 0 with h | ⟨m, hm, he⟩
    · rcases List.exists_mem_of_ne_nil models hne with ⟨m0, hm0⟩
      have hle : mult m0 ≤ highest_multiplier mult models :=
        foldl_step_ge_mem mult models 0 m0 hm0
      rw [highest_multiplier, h] at hle ⊢
      exact ⟨m0, hm0, le_antisymm (hpos m0 hm0) hle⟩
    · exact ⟨m, hm, he⟩
  · rw [required_kudos_calc, if_neg]
    simpa using hne
  · have h5 : highest_multiplier exampleMult ["modelA", "modelB"] = 5 := rfl
    rw [required_kudos_calc]
    norm_num [h5, pyRound2]

/-- Witness for C1 at the spec's worked example: models ×2 and ×5, n = 1,
max_length = 210. -/
theorem required_kudos_uses_max_multiplier_w :
    required_kudos_calc exampleMult [] 210 1 = 20 * (1 : ℚ) ∧
    IsMaxMultiplier (highest_multiplier exampleMult ["modelA", "modelB"])
      exampleMult ["modelA", "modelB"] ∧
    required_kudos_calc exampleMult ["modelA", "modelB"] 210 1
      = pyRound2 ((210 : ℚ) * highest_multiplier exampleMult ["modelA", "modelB"] / 21)
          * (1 : ℚ) ∧
    required_kudos_calc exampleMult ["modelA", "modelB"] 210 1 = 50 :=
  required_kudos_uses_max_multiplier exampleMult ["modelA", "modelB"] 210 1
    (by simp)
    (by intro m hm; fin_cases hm <;> simp [exampleMult])

/-- Claim C4: cancelling an existing job zeroes its remaining count, raises no
error, and leaves the job in the cancelled terminal state; cancelling a job
already at `remaining == 0` is a no-op that returns the job's unchanged status
with no error. -/
theorem cancel_zeroes_remaining_and_idempotent (wp : TextWP) (sig : Signals) :
    (textAsyncStatus_delete (some wp) sig).finalWP = some { wp with n := 0 } ∧
    (textAsyncStatus_delete (some wp) sig).err = none ∧
    jobState true false { wp with n := 0 } = .cancelled ∧
    (textAsyncStatus_delete (some { wp with n := 0 }) sig).finalWP
      = some { wp with n := 0 } ∧
    (textAsyncStatus_delete (some { wp with n := 0 }) sig).response
      = some (get_status { wp with n := 0 } sig) ∧
    (textAsyncStatus_delete (some { wp with n := 0 }) sig).err = none :=
  ⟨rfl, rfl, rfl, rfl, rfl, rfl⟩

/-- Claim C10: the cancel endpoint computes the status it returns before
zeroing the remaining count, so the response carries the job exactly as it was
immediately before cancellation while the stored job ends at `n = 0`. -/
theorem cancel_status_computed_before_mutation (wp : TextWP) (sig : Signals) :
    (textAsyncStatus_delete (some wp) sig).response = some (get_status wp sig) ∧
    (get_status wp sig).job = wp ∧
    (textAsyncStatus_delete (some wp) sig).finalWP = some { wp with n := 0 } :=
  ⟨rfl, rfl, rfl⟩

/-- The function `initiate_waiting_prompt` unfolded over `requiredOf`. -/
theorem initiate_waiting_prompt_eq (inp : GenInput) :
    initiate_waiting_prompt inp =
      if sharedKeyBudgetShort inp.sharedkey (requiredOf inp) then
        if inp.allow_downgrade && !inp.disable_downgrade then
          check_upfront_kudos inp (requiredOf inp) true
        else .rejected true (.KudosUpfront (requiredOf inp) "SharedKeyInsufficientKudos")
      else check_upfront_kudos inp (requiredOf inp) false := rfl

/-- Claim C2: a request paid through a shared key with a finite budget smaller
than the required kudos, with downgrade not permitted, deletes the waiting
prompt and raises `KudosUpfront` carrying the exact required amount under the
distinct `SharedKeyInsufficientKudos` reason; the user balance `inp.user_kudos`
is left unconstrained, so the outcome is independent of it. -/
theorem sharedkey_insufficient_budget_rejects (inp : GenInput) (k : SharedKey)
    (hk : inp.sharedkey = some k)
    (hfin : k.kudos ≠ -1)
    (hgt : requiredOf inp > k.kudos)
    (hnd : (inp.allow_downgrade && !inp.disable_downgrade) = false) :
    initiate_waiting_prompt inp
      = .rejected true (.KudosUpfront (requiredOf inp) "SharedKeyInsufficientKudos") := by
  have h1 : sharedKeyBudgetShort inp.sharedkey (requiredOf inp) = true := by
    rw [hk]
    simp [sharedKeyBudgetShort, hfin, hgt]
  rw [initiate_waiting_prompt_eq, h1, hnd]
  simp

/-- Witness for C2: shared key with budget 30 against 60 required kudos,
downgrade not requested. -/
theorem sharedkey_insufficient_budget_rejects_w :
    initiate_waiting_prompt inputC2
      = .rejected true (.KudosUpfront (requiredOf inputC2) "SharedKeyInsufficientKudos") :=
  sharedkey_insufficient_budget_rejects inputC2 skBudget30 rfl
    (by norm_num [skBudget30])
    (by norm_num [requiredOf, required_kudos_calc, inputC2, skBudget30])
    rfl

/-- Claim C3: when upfront kudos are required and the user balance falls short,
a permitted downgrade admits the job with `wp.downgrade(tokens)` applied
(provided the token-ceiling stage passes the downgraded job), and a
non-permitted downgrade deletes the waiting prompt and raises `KudosUpfront`
carrying the exact required amount. -/
theorem upfront_kudos_downgrade_or_reject (inp : GenInput)
    (hn : inp.needs_kudos = true)
    (hgt : requiredOf inp > inp.user_kudos)
    (hq : quotaPass inp.sharedkey inp.existing_style
        ((inp.downgrade inp.wp inp.tokens).max_length) = true) :
    initiate_waiting_prompt inp =
      if inp.allow_downgrade && !inp.disable_downgrade then
        .accepted (inp.downgrade inp.wp inp.tokens)
          (sharedKeyBudgetShort inp.sharedkey (requiredOf inp)) true
      else
        .rejected true (.KudosUpfront (requiredOf inp)
          (if sharedKeyBudgetShort inp.sharedkey (requiredOf inp)
           then "SharedKeyInsufficientKudos" else "KudosUpfront")) := by
  have hcu : ∀ dp : Bool, check_upfront_kudos inp (requiredOf inp) dp =
      if inp.allow_downgrade && !inp.disable_downgrade then
        .accepted (inp.downgrade inp.wp inp.tokens) dp true
      else .rejected true (.KudosUpfront (requiredOf inp) "KudosUpfront") := by
    intro dp
    unfold check_upfront_kudos
    rw [hn]
    simp only [Bool.true_and]
    rw [if_pos (decide_eq_true hgt)]
    by_cases hd : (inp.allow_downgrade && !inp.disable_downgrade) = true
    · rw [if_pos hd, if_pos hd]
      exact check_sharedkey_limits_of_quotaPass inp _ dp true hq
    · rw [if_neg hd, if_neg hd]
  rw [initiate_waiting_prompt_eq]
  by_cases hb : sharedKeyBudgetShort inp.sharedkey (requiredOf inp) = true
  · rw [if_pos hb, hb]
    by_cases hd : (inp.allow_downgrade && !inp.disable_downgrade) = true
    · rw [if_pos hd, hcu true, if_pos hd, if_pos hd]
    · rw [if_neg hd, if_neg hd]
      simp
  · have hb2 : sharedKeyBudgetShort inp.sharedkey (requiredOf inp) = false :=
      Bool.eq_false_iff.mpr (fun hx => hb hx)
    rw [if_neg hb, hcu false, hb2]
    by_cases hd : (inp.allow_downgrade && !inp.disable_downgrade) = true
    · rw [if_pos hd, if_pos hd]
    · rw [if_neg hd, if_neg hd]
      simp

/-- Witness for C3: a request needing 20 upfront kudos on a balance of 5 with
downgrade permitted and no shared key. -/
theorem upfront_kudos_downgrade_or_reject_w :
    initiate_waiting_prompt inputC3 =
      if inputC3.allow_downgrade && !inputC3.disable_downgrade then
        .accepted (inputC3.downgrade inputC3.wp inputC3.tokens)
          (sharedKeyBudgetShort inputC3.sharedkey (requiredOf inputC3)) true
      else
        .rejected true (.KudosUpfront (requiredOf inputC3)
          (if sharedKeyBudgetShort inputC3.sharedkey (requiredOf inputC3)
           then "SharedKeyInsufficientKudos" else "KudosUpfront")) :=
  upfront_kudos_downgrade_or_reject inputC3 rfl
    (by norm_num [requiredOf, required_kudos_calc, inputC3])
    rfl

/-- Claim C5: with a shared key, when every kudos check passes and the key's
token ceiling fails on the job, the request is deleted and rejected — unless
the key is the one bound to the style in use, which bypasses the ceiling. -/
theorem sharedkey_token_ceiling_enforced (inp : GenInput) (k : SharedKey)
    (hk : inp.sharedkey = some k)
    (h1 : sharedKeyBudgetShort inp.sharedkey (requiredOf inp) = false)
    (h2 : (inp.needs_kudos && decide (requiredOf inp > inp.user_kudos)) = false)
    (h3 : (k.is_job_within_limits inp.wp.max_length).1 = false) :
    initiate_waiting_prompt inp =
      if styleBypass inp.existing_style k then .accepted inp.wp false false
      else .rejected true (.BadRequest (k.is_job_within_limits inp.wp.max_length).2) := by
  rw [initiate_waiting_prompt_eq, h1]
  simp only [Bool.false_eq_true, if_false]
  unfold check_upfront_kudos
  rw [h2]
  simp only [Bool.false_eq_true, if_false]
  unfold check_sharedkey_limits
  rw [hk]
  dsimp only
  rw [h3]
  simp only [Bool.false_eq_true, if_false]

/-- Witness for C5: an unlimited-budget shared key whose token ceiling fails,
no style in use. -/
theorem sharedkey_token_ceiling_enforced_w :
    initiate_waiting_prompt inputC5 =
      if styleBypass inputC5.existing_style skOverCeiling then
        .accepted inputC5.wp false false
      else
        .rejected true
          (.BadRequest (skOverCeiling.is_job_within_limits inputC5.wp.max_length).2) :=
  sharedkey_token_ceiling_enforced inputC5 skOverCeiling rfl
    (by norm_num [sharedKeyBudgetShort, inputC5, skOverCeiling])
    rfl
    rfl

/-- Claim C9: a shared key whose kudos budget is the unlimited sentinel `-1`
is never the source of a budget rejection and never triggers the budget
priority downgrade, however large the required kudos are. -/
theorem sharedkey_unlimited_sentinel_skips_budget (inp : GenInput) (k : SharedKey)
    (hk : inp.sharedkey = some k) (hs : k.kudos = -1) :
    isSharedKeyBudgetRejection (initiate_waiting_prompt inp) = false ∧
    downgradePriorityOf (initiate_waiting_prompt inp) = false := by
  have h0 : sharedKeyBudgetShort inp.sharedkey (requiredOf inp) = false := by
    rw [hk]
    simp [sharedKeyBudgetShort, hs]
  rw [initiate_waiting_prompt_eq, h0]
  simp only [Bool.false_eq_true, if_false]
  exact check_upfront_kudos_no_budget_rejection inp (requiredOf inp)

/-- Witness for C9: an unlimited shared key on a job requiring 20 million
kudos against a zero user balance. -/
theorem sharedkey_unlimited_sentinel_skips_budget_w :
    isSharedKeyBudgetRejection (initiate_waiting_prompt inputC9) = false ∧
    downgradePriorityOf (initiate_waiting_prompt inputC9) = false :=
  sharedkey_unlimited_sentinel_skips_budget inputC9 skUnlimited rfl rfl

/-- Applying `format_map` over the `defaultdict(str, p=prompt)` mapping always succeeds
and renders the template with the prompt in the `p` slot and empty strings in
every other slot. -/
theorem pyFormatMap_defaultdict_ok (tmpl : List Segment) (p : String) :
    pyFormatMap tmpl (defaultdictStr p) = .ok (renderTemplate tmpl p) := by
  induction tmpl with
  | nil => rfl
  | cons seg rest ih =>
    cases seg with
    | lit s => simp [pyFormatMap, renderTemplate, ih, Except.map]
    | hole name => simp [pyFormatMap, renderTemplate, defaultdictStr, ih, Except.map]

/-- Claim C6: style application interpolates the user prompt into the `p` slot
and replaces every other placeholder with the empty string, and the
`format_map` call over `defaultdict(str, p=prompt)` never raises, whatever
placeholder names the template contains. -/
theorem style_prompt_interpolation_total (tmpl : List Segment) (p : String) :
    pyFormatMap tmpl (defaultdictStr p) = .ok (renderTemplate tmpl p) :=
  pyFormatMap_defaultdict_ok tmpl p

/-- Claim C7: after style application the request's models equal the style's
model list and its params equal the style's params, except that `n` is the
count the user originally requested, defaulting to 1 when absent. -/
theorem apply_style_overrides_models_params_keeps_n (st : Style) (s out : ReqState)
    (h : apply_style st s = .ok out) :
    out.models = st.model_names ∧
    out.params = { st.params with n := some (s.params.n.getD 1) } ∧
    out.params.n = some (s.params.n.getD 1) := by
  unfold apply_style at h
  rw [pyFormatMap_defaultdict_ok] at h
  split at h
  · exact absurd h (by simp)
  · injection h with h2
    subst h2
    exact ⟨rfl, rfl, rfl⟩

/-- Witness for C7: a style carrying its own `n = 4` applied to a request with
no `n`, which therefore keeps the default count 1. -/
theorem apply_style_overrides_models_params_keeps_n_w :
    outC7.models = styleC7.model_names ∧
    outC7.params = { styleC7.params with n := some (reqC7.params.n.getD 1) } ∧
    outC7.params.n = some (reqC7.params.n.getD 1) :=
  apply_style_overrides_models_params_keeps_n styleC7 reqC7 outC7 (by
    rw [apply_style, pyFormatMap_defaultdict_ok]
    rfl)

/-- Claim C8: the kudos-transfer endpoint denies every caller other than the
fixed trusted address before touching the user: it returns the Access Denied
error and leaves the target user's kudos balance and trust flag unchanged. -/
theorem kudos_transfer_denied_for_other_callers (remote_addr : String)
    (user : Option User) (amount : ℤ) (tr : Bool)
    (h : remote_addr ≠ "167.86.124.45") :
    kobold_kudos_transfer remote_addr user amount tr
      = { finalUser := user, result := .error (.BadRequest "Access Denied") } := by
  unfold kobold_kudos_transfer
  rw [if_pos h]

/-- Witness for C8: a transfer attempt from another address leaves the user at
11 kudos, untrusted, and is denied. -/
theorem kudos_transfer_denied_for_other_callers_w :
    kobold_kudos_transfer "203.0.113.5" (some { kudos := 11, trusted := false }) 100 true
      = { finalUser := some { kudos := 11, trusted := false }
          result := .error (.BadRequest "Access Denied") } :=
  kudos_transfer_denied_for_other_callers "203.0.113.5"
    (some { kudos := 11, trusted := false }) 100 true (by simp)

end AIHorde
